import Mathlib

/-!
Verification of the Tower Control service-control backend (`src/main.py`)
against its natural-language specification.

The Python module is shallowly embedded: pure helpers become Lean
functions on `String` / `List Char`; the subprocess boundary becomes a
`World` record carrying the resolved `systemctl` path, whether it exists,
and an oracle mapping an argument vector to an exit code and captured
output; operations additionally return the list of argument vectors they
passed to the `systemctl` wrapper, so that ordering claims about
invocations can be stated.
-/

set_option maxRecDepth 4000

deriving instance DecidableEq for Except

/-- The whitespace predicate of Python's `str.strip()` (the characters for
which `str.isspace` holds). -/
def pyIsSpace (c : Char) : Bool :=
  let n := c.toNat
  (9 ≤ n && n ≤ 13) || n == 32 || (28 ≤ n && n ≤ 31) || n == 0x85 || n == 0xa0 ||
    n == 0x1680 || (0x2000 ≤ n && n ≤ 0x200a) || n == 0x2028 || n == 0x2029 ||
    n == 0x202f || n == 0x205f || n == 0x3000

/-- Python `str.strip()` on a character list: drop leading and trailing
whitespace. -/
def pyStripL (l : List Char) : List Char :=
  ((l.dropWhile pyIsSpace).reverse.dropWhile pyIsSpace).reverse

/-- Python `str.strip()` on a `String`. -/
def pyStrip (s : String) : String :=
  (pyStripL s.toList).asString

/-- `beginsWith pat s` is true when `pat` is an initial segment of `s`. -/
def beginsWith : List Char → List Char → Bool
  | [], _ => true
  | _ :: _, [] => false
  | a :: as, b :: bs => a == b && beginsWith as bs

/-- Python's `pat in s` substring containment on character lists. -/
def hasSubstr (pat : List Char) : List Char → Bool
  | [] => beginsWith pat []
  | c :: rest => beginsWith pat (c :: rest) || hasSubstr pat rest

/-- Python's `pat in s` substring containment on `String`s. -/
def hasSubstrS (pat s : String) : Bool :=
  hasSubstr pat.toList s.toList

/-- The character class `[A-Za-z0-9@._:-]` of `_UNIT_RE` (src/main.py line 13). -/
def unitClassChar (c : Char) : Bool :=
  let n := c.toNat
  (65 ≤ n && n ≤ 90) || (97 ≤ n && n ≤ 122) || (48 ≤ n && n ≤ 57) ||
    c == '@' || c == '.' || c == '_' || c == ':' || c == '-'

/-- Matching of the regex the source actually compiles,
`^[A-Za-z0-9@._:-]+(?:\\.[A-Za-z0-9@._:-]+)?$`, against a whole string,
ignoring the `$`-before-final-newline allowance (handled by the wrapper).
Note that inside the *raw* Python string, `\\.` denotes a literal
backslash followed by `.` (any character other than a newline), not an
escaped dot.  The leading `C+` can only stop at the first character
outside the class, which must then be the literal backslash of the
optional group, so the match is deterministic. -/
def unitReCore (s : List Char) : Bool :=
  let pre := s.takeWhile unitClassChar
  match s.dropWhile unitClassChar with
  | [] => !s.isEmpty
  | b :: rest =>
    b == '\\' && !pre.isEmpty &&
      (match rest with
       | [] => false
       | c :: rest2 => c != '\n' && !rest2.isEmpty && rest2.all unitClassChar)

/-- `_UNIT_RE.match` (truthiness of a full-anchored match): Python's `$`
also matches just before a newline that ends the string. -/
def _UNIT_RE_match (s : List Char) : Bool :=
  unitReCore s ||
    (match s.getLast? with
     | some '\n' => unitReCore s.dropLast
     | _ => false)

/-- `_normalize_unit` (src/main.py lines 82-91): strip, reject empty,
reject names not matched by `_UNIT_RE`, and append `.service` when the
name contains no `.`.  The `raise ValueError` sites become `Except.error`
with the same message. -/
def _normalize_unit (s : String) : Except String String :=
  let u := pyStripL s.toList
  if u.isEmpty then Except.error "unit is required"
  else if !_UNIT_RE_match u then Except.error "invalid unit name"
  else if u.contains '.' then Except.ok u.asString
  else Except.ok (u.asString ++ ".service")

/-- Modelled from the spec: the language of the spec's stated pattern
`^[A-Za-z0-9@._:-]+(\.[A-Za-z0-9@._:-]+)?$`, in which `\.` is an escaped
literal dot — a non-empty run over the class, optionally followed by a
dot and another non-empty run over the class (the split position is
searched explicitly). -/
def specUnitMatch (s : List Char) : Bool :=
  (!s.isEmpty && s.all unitClassChar) ||
    ((List.range s.length).any (fun i =>
      let a := s.take i
      match s.drop i with
      | '.' :: b => !a.isEmpty && a.all unitClassChar && !b.isEmpty && b.all unitClassChar
      | _ => false))

/-- Claim C1: unit-name normalization trims, errors exactly on the empty
string or a string not matching `^[A-Za-z0-9@._:-]+(\.[A-Za-z0-9@._:-]+)?$`,
and otherwise appends `.service` iff no dot is present.  This fails on the
code: the raw-string pattern in the source reads `\\.` — a literal
backslash followed by any character — so the four-character input
`a\bc` (trimmed to itself, rejected by the spec's pattern) is accepted by
the code, which returns `a\bc.service` instead of raising InvalidInput. -/
theorem C1_normalize_accepts_backslash :
    specUnitMatch "a\\bc".toList = false ∧
    pyStripL "a\\bc".toList = "a\\bc".toList ∧
    _normalize_unit "a\\bc" = Except.ok "a\\bc.service" := by
  decide

/-- The line-break characters recognized by Python's `str.splitlines`
(other than the two-character sequence CR LF, handled separately). -/
def pyLineBreak (c : Char) : Bool :=
  let n := c.toNat
  (10 ≤ n && n ≤ 13) || (28 ≤ n && n ≤ 30) || n == 0x85 || n == 0x2028 || n == 0x2029

/-- Worker for `str.splitlines`: `acc` holds the current line reversed. -/
def pySplitlinesAux : List Char → List Char → List (List Char)
  | [], acc => if acc.isEmpty then [] else [acc.reverse]
  | '\r' :: '\n' :: rest, acc => acc.reverse :: pySplitlinesAux rest []
  | c :: rest, acc =>
    if pyLineBreak c then acc.reverse :: pySplitlinesAux rest []
    else pySplitlinesAux rest (c :: acc)

/-- Python `str.splitlines()` (no trailing empty line for a trailing
line break). -/
def pySplitlines (s : List Char) : List (List Char) :=
  pySplitlinesAux s []

/-- Python `line.split("=", 1)` restricted to lines that contain `=`:
`some (before, after)` splits at the first `=`; `none` exactly when the
line has no `=` (the `continue` case of `_parse_kv_lines`). -/
def splitEq1 : List Char → Option (List Char × List Char)
  | [] => none
  | c :: rest =>
    if c == '=' then some ([], rest)
    else
      match splitEq1 rest with
      | none => none
      | some (a, b) => some (c :: a, b)

/-- The key/value pair a single line of `_parse_kv_lines` contributes:
split at the first `=` and strip both sides (`none` for lines without `=`). -/
def lineKV (line : List Char) : Option (String × String) :=
  (splitEq1 line).map (fun p => ((pyStripL p.1).asString, (pyStripL p.2).asString))

/-- Python `dict` assignment `data[k] = v`: replace the value at an
existing key in place, otherwise append the new binding. -/
def kvUpdate : List (String × String) → String → String → List (String × String)
  | [], k, v => [(k, v)]
  | p :: rest, k, v => if p.1 == k then (k, v) :: rest else p :: kvUpdate rest k v

/-- Python `data.get(k)`. -/
def kvGet (m : List (String × String)) (k : String) : Option String :=
  (m.find? (fun p => p.1 == k)).map (fun p => p.2)

/-- Python `data.get(k, d)`. -/
def kvGetD (m : List (String × String)) (k d : String) : String :=
  (kvGet m k).getD d

/-- One loop iteration of `_parse_kv_lines`. -/
def parseStep (m : List (String × String)) (line : List Char) : List (String × String) :=
  match lineKV line with
  | none => m
  | some (k, v) => kvUpdate m k v

/-- `_parse_kv_lines` (src/main.py lines 72-79). -/
def _parse_kv_lines (text : String) : List (String × String) :=
  (pySplitlines text.toList).foldl parseStep []

/-- The Unit Status record (the dict returned by `_get_unit_status`). -/
structure UnitStatus where
  unit : String
  unitExists : Bool
  active : Bool
  activeState : String
  subState : String
  unitFileState : String
  enabled : Bool
  canToggleEnable : Bool
  description : Option String
  loadState : String
deriving DecidableEq

/-- The synthesized record `_get_unit_status` returns for a unit that
`systemctl` reports as missing (src/main.py lines 125-136). -/
def notFoundStatus (unit : String) : UnitStatus :=
  { unit := unit, unitExists := false, active := false, activeState := "inactive",
    subState := "dead", unitFileState := "not-found", enabled := false,
    canToggleEnable := false, description := none, loadState := "not-found" }

/-- The generic branch of `_get_unit_status` (src/main.py lines 141-165):
parse stdout and derive the flags. -/
def parsedStatus (unit : String) (out : String) : UnitStatus :=
  let data := _parse_kv_lines out
  let load_state := kvGetD data "LoadState" "unknown"
  let active_state := kvGetD data "ActiveState" "unknown"
  let sub_state := kvGetD data "SubState" "unknown"
  let unit_file_state := kvGetD data "UnitFileState" "unknown"
  let desc := kvGet data "Description"
  { unit := unit, unitExists := load_state != "not-found",
    active := active_state == "active", activeState := active_state,
    subState := sub_state, unitFileState := unit_file_state,
    enabled := unit_file_state == "enabled" || unit_file_state == "enabled-runtime",
    canToggleEnable := unit_file_state != "static",
    description := desc, loadState := load_state }

/-- The status-derivation part of `_get_unit_status` (src/main.py lines
122-165), applied to the result of the `show` invocation: the not-found
shortcut fires on a non-zero exit code with empty stdout and a stderr
containing one of the two marker substrings; every other case (including
the logged-warning fallthrough) parses stdout. -/
def statusFrom (unit : String) (rc : Int) (out err : String) : UnitStatus :=
  if (rc != 0) && (out == "") && (hasSubstrS "not be found" err || hasSubstrS "not-found" err)
  then notFoundStatus unit
  else parsedStatus unit out

/-- `_format_systemctl_error` (src/main.py lines 36-43).  The `unit`
parameter is accepted but, as in the source, unused. -/
def _format_systemctl_error (action : String) (unit : String) (rc : Int) (out err : String) : String :=
  let bits : List String := if err != "" then [err] else []
  let bits := if out != "" && !(bits.any (fun b => b == out)) then bits ++ [out] else bits
  let details := if bits.isEmpty then "systemctl " ++ action ++ " failed"
                 else String.intercalate " | " bits
  details ++ " (rc=" ++ toString rc ++ ")"

/-- An allowlist entry (`{"unit": ..., "label": ...}`). -/
structure AllowEntry where
  unit : String
  label : String
deriving DecidableEq

/-- `DEFAULT_UNITS` (src/main.py lines 18-22). -/
def DEFAULT_UNITS : List AllowEntry :=
  [{ unit := "sshd.service", label := "SSH Server" },
   { unit := "bluetooth.service", label := "Bluetooth" }]

/-- `Plugin._allowed_units` (src/main.py lines 103-105). -/
def _allowed_units : List AllowEntry := DEFAULT_UNITS

/-- `Plugin._is_allowed` (src/main.py lines 107-109): membership of the
normalized name among the allowlist's `unit` fields. -/
def _is_allowed (u : String) : Bool :=
  _allowed_units.any (fun e => e.unit == u)

/-- The environment `_run_systemctl` interacts with: the resolved
`_SYSTEMCTL_BIN` path, whether that path exists (`_systemctl_exists`),
and an oracle giving, for each full argument vector passed to the
subprocess, its exit code and raw (undecoded-trim) stdout/stderr. -/
structure World where
  systemctlBin : String
  binExists : Bool
  exec : List String → Int × String × String

/-- `_run_systemctl` (src/main.py lines 50-69): short-circuit with exit
code 127 when the resolved path does not exist; otherwise run with
`--no-pager` prepended and strip both captured streams. -/
def _run_systemctl (w : World) (args : List String) : Int × String × String :=
  if !w.binExists then (127, "", "systemctl not found at " ++ w.systemctlBin)
  else
    let r := w.exec ("--no-pager" :: args)
    (r.1, pyStrip r.2.1, pyStrip r.2.2)

/-- The argument vector of the `show` invocation in `_get_unit_status`. -/
def show_args (u : String) : List String :=
  ["show", u, "--property=LoadState,ActiveState,SubState,UnitFileState,Description"]

/-- The status `_get_unit_status` computes for an already-normalized unit:
run `show` and derive. -/
def fetch_status (w : World) (u : String) : UnitStatus :=
  let r := _run_systemctl w (show_args u)
  statusFrom u r.1 r.2.1 r.2.2

/-- `Plugin._get_unit_status` (src/main.py lines 111-165), paired with
the trace of argument vectors passed to `_run_systemctl`. -/
def _get_unit_status (w : World) (unit : String) :
    Except String UnitStatus × List (List String) :=
  match _normalize_unit unit with
  | Except.error e => (Except.error e, [])
  | Except.ok u => (Except.ok (fetch_status w u), [show_args u])

/-- `Plugin.get_service_status` (src/main.py lines 188-204): normalize,
check the allowlist (raising "unit is not allowlisted" otherwise), then
fetch the status.  The dict it rebuilds carries exactly the fields of the
status, so the projection is the identity here. -/
def get_service_status (w : World) (unit : String) :
    Except String UnitStatus × List (List String) :=
  match _normalize_unit unit with
  | Except.error e => (Except.error e, [])
  | Except.ok u =>
    if _is_allowed u then _get_unit_status w u
    else (Except.error "unit is not allowlisted", [])

/-- `Plugin.set_service_running` (src/main.py lines 206-225): normalize,
authorize, run `start`/`stop`, and on non-zero exit return the re-fetched
status annotated with the formatted error; the ValueError sites before
the `try` are the only thrown errors. -/
def set_service_running (w : World) (unit : String) (running : Bool) :
    Except String (UnitStatus × Option String) × List (List String) :=
  match _normalize_unit unit with
  | Except.error e => (Except.error e, [])
  | Except.ok u =>
    if _is_allowed u then
      let action := if running then "start" else "stop"
      let r := _run_systemctl w [action, u]
      if r.1 != 0 then
        match get_service_status w u with
        | (Except.error e, t) => (Except.error e, [action, u] :: t)
        | (Except.ok st, t) =>
          (Except.ok (st, some (_format_systemctl_error action u r.1 r.2.1 r.2.2)),
           [action, u] :: t)
      else
        match get_service_status w u with
        | (Except.error e, t) => (Except.error e, [action, u] :: t)
        | (Except.ok st, t) => (Except.ok (st, none), [action, u] :: t)
    else (Except.error "unit is not allowlisted", [])

/-- The `enable` step of `set_service_enabled` (src/main.py lines
255-261 and the final re-fetch), with `tpre` the trace accumulated before
it. -/
def enable_step (w : World) (u : String) (tpre : List (List String)) :
    Except String (UnitStatus × Option String) × List (List String) :=
  let r := _run_systemctl w ["enable", u]
  if r.1 != 0 then
    match get_service_status w u with
    | (Except.error e, t) => (Except.error e, tpre ++ [["enable", u]] ++ t)
    | (Except.ok st, t) =>
      (Except.ok (st, some (_format_systemctl_error "enable" u r.1 r.2.1 r.2.2)),
       tpre ++ [["enable", u]] ++ t)
  else
    match get_service_status w u with
    | (Except.error e, t) => (Except.error e, tpre ++ [["enable", u]] ++ t)
    | (Except.ok st, t) => (Except.ok (st, none), tpre ++ [["enable", u]] ++ t)

/-- The `disable` step of `set_service_enabled` (src/main.py lines
263-269 and the final re-fetch). -/
def disable_step (w : World) (u : String) (tpre : List (List String)) :
    Except String (UnitStatus × Option String) × List (List String) :=
  let r := _run_systemctl w ["disable", u]
  if r.1 != 0 then
    match get_service_status w u with
    | (Except.error e, t) => (Except.error e, tpre ++ [["disable", u]] ++ t)
    | (Except.ok st, t) =>
      (Except.ok (st, some (_format_systemctl_error "disable" u r.1 r.2.1 r.2.2)),
       tpre ++ [["disable", u]] ++ t)
  else
    match get_service_status w u with
    | (Except.error e, t) => (Except.error e, tpre ++ [["disable", u]] ++ t)
    | (Except.ok st, t) => (Except.ok (st, none), tpre ++ [["disable", u]] ++ t)

/-- `Plugin.set_service_enabled` (src/main.py lines 227-275): normalize,
authorize, inspect the current status, short-circuit on `static`, unmask
first when `masked`, then enable/disable and re-fetch.  A `ValueError`
raised by an inner `get_service_status` call would be re-raised by the
`except` handler's own status fetch, so threading the error through is
its net semantics. -/
def set_service_enabled (w : World) (unit : String) (enabled : Bool) :
    Except String (UnitStatus × Option String) × List (List String) :=
  match _normalize_unit unit with
  | Except.error e => (Except.error e, [])
  | Except.ok u =>
    if _is_allowed u then
      match _get_unit_status w u with
      | (Except.error e, t0) => (Except.error e, t0)
      | (Except.ok current, t0) =>
        if enabled && current.unitFileState == "static" then
          match get_service_status w u with
          | (Except.error e, t1) => (Except.error e, t0 ++ t1)
          | (Except.ok st, t1) =>
            (Except.ok (st, some "unit is static and cannot be enabled/disabled"), t0 ++ t1)
        else if enabled then
          if current.unitFileState == "masked" then
            let r := _run_systemctl w ["unmask", u]
            if r.1 != 0 then
              match get_service_status w u with
              | (Except.error e, t1) => (Except.error e, t0 ++ [["unmask", u]] ++ t1)
              | (Except.ok st, t1) =>
                (Except.ok (st, some (_format_systemctl_error "unmask" u r.1 r.2.1 r.2.2)),
                 t0 ++ [["unmask", u]] ++ t1)
            else enable_step w u (t0 ++ [["unmask", u]])
          else enable_step w u t0
        else disable_step w u t0
    else (Except.error "unit is not allowlisted", [])

/-- Membership in the fixed allowlist pins the name to one of its two
entries. -/
theorem allowed_cases (u : String) (h : _is_allowed u = true) :
    u = "sshd.service" ∨ u = "bluetooth.service" := by
  simp [_is_allowed, _allowed_units, DEFAULT_UNITS] at h
  rcases h with h | h
  · exact Or.inl h.symm
  · exact Or.inr h.symm

/-- An allowlisted name normalizes to itself. -/
theorem normalize_allowed (u : String) (h : _is_allowed u = true) :
    _normalize_unit u = Except.ok u := by
  rcases allowed_cases u h with h | h <;> subst h <;> decide

/-- For an allowlisted (hence already-normalized) name,
`get_service_status` succeeds with the freshly fetched status and one
`show` invocation. -/
theorem gss_allowed (w : World) (u : String) (h : _is_allowed u = true) :
    get_service_status w u = (Except.ok (fetch_status w u), [show_args u]) := by
  simp [get_service_status, _get_unit_status, normalize_allowed u h, h]

/-- For an allowlisted name, `_get_unit_status` succeeds likewise. -/
theorem gus_allowed (w : World) (u : String) (h : _is_allowed u = true) :
    _get_unit_status w u = (Except.ok (fetch_status w u), [show_args u]) := by
  simp [_get_unit_status, normalize_allowed u h]

/-- Claim C2: for an input whose normalized form is not allowlisted,
`get_service_status` raises "unit is not allowlisted" and performs no
`systemctl` invocation at all (regardless of the state of the underlying
system, i.e. for every `World`); for an allowlisted normalized form no
such error is raised. -/
theorem C2_status_requires_allowlist (w : World) (s n : String)
    (hn : _normalize_unit s = Except.ok n) :
    (_is_allowed n = false →
      get_service_status w s = (Except.error "unit is not allowlisted", [])) ∧
    (_is_allowed n = true →
      get_service_status w s = (Except.ok (fetch_status w n), [show_args n])) := by
  constructor
  · intro h
    simp [get_service_status, hn, h]
  · intro h
    simp [get_service_status, _get_unit_status, hn, normalize_allowed n h, h]

/-- A concrete instance of C2: `cron` normalizes to `cron.service`, which
is not allowlisted, so the status query fails without any invocation. -/
theorem C2_status_requires_allowlist_witness :
    get_service_status
        { systemctlBin := "/usr/bin/systemctl", binExists := true,
          exec := fun _ => (0, "", "") } "cron"
      = (Except.error "unit is not allowlisted", []) :=
  (C2_status_requires_allowlist
      { systemctlBin := "/usr/bin/systemctl", binExists := true,
        exec := fun _ => (0, "", "") }
      "cron" "cron.service" (by decide)).1 (by decide)

/-- Claim C3: a `show` result with non-zero exit code, empty stdout, and
a stderr containing "not be found" or "not-found" derives exactly the
synthesized not-found record, with no stdout parsing. -/
theorem C3_not_found_synthesis (u : String) (rc : Int) (err : String)
    (h1 : rc ≠ 0)
    (h2 : (hasSubstrS "not be found" err || hasSubstrS "not-found" err) = true) :
    statusFrom u rc "" err =
      { unit := u, unitExists := false, active := false, activeState := "inactive",
        subState := "dead", unitFileState := "not-found", enabled := false,
        canToggleEnable := false, description := none, loadState := "not-found" } := by
  have hb : (rc != 0) = true := by simpa using h1
  simp [statusFrom, hb, h2, notFoundStatus]

/-- A concrete instance of C3 at exit code 1 and a systemd-style stderr. -/
theorem C3_not_found_synthesis_witness :
    (1 : Int) ≠ 0 ∧
    statusFrom "x.service" 1 "" "Unit x.service could not be found." =
      { unit := "x.service", unitExists := false, active := false,
        activeState := "inactive", subState := "dead", unitFileState := "not-found",
        enabled := false, canToggleEnable := false, description := none,
        loadState := "not-found" } :=
  ⟨by decide, C3_not_found_synthesis "x.service" 1 "Unit x.service could not be found."
      (by decide) (by decide)⟩

/-- For the parsed branch, an `enabled`-reporting unit-file state differs
from `static`. -/
theorem str_enabled_toggle (x : String)
    (h : (x == "enabled" || x == "enabled-runtime") = true) : (x != "static") = true := by
  rcases (by simpa using h : x = "enabled" ∨ x = "enabled-runtime") with he | he <;>
    subst he <;> decide

/-- Claim C9: no status record produced by status derivation reports
`enabled` without `canToggleEnable` — in the synthesized not-found record
`enabled` is false, and in the generic branch `enabled` forces the
unit-file state to `enabled`/`enabled-runtime`, which differ from
`static`. -/
theorem C9_enabled_implies_toggle (u : String) (rc : Int) (out err : String)
    (h : (statusFrom u rc out err).enabled = true) :
    (statusFrom u rc out err).canToggleEnable = true := by
  unfold statusFrom at h ⊢
  by_cases hc : ((rc != 0) && (out == "") &&
      (hasSubstrS "not be found" err || hasSubstrS "not-found" err)) = true
  · rw [if_pos hc] at h
    simp [notFoundStatus] at h
  · rw [if_neg hc] at h ⊢
    exact str_enabled_toggle _ h

/-- A concrete instance of C9: an enabled unit is reported toggle-eligible. -/
theorem C9_enabled_implies_toggle_witness :
    (statusFrom "x.service" 0 "UnitFileState=enabled" "").enabled = true ∧
    (statusFrom "x.service" 0 "UnitFileState=enabled" "").canToggleEnable = true :=
  ⟨by decide, C9_enabled_implies_toggle "x.service" 0 "UnitFileState=enabled" "" (by decide)⟩

/-- Claim C10: when the resolved `systemctl` path does not exist, the
short-circuited invocation (exit code 127, empty stdout, stderr
"systemctl not found at <path>") does not trip the not-found heuristic —
provided, as for every realistic path, neither marker substring occurs in
that stderr — so the empty stdout is parsed and the unit is reported with
`exists` true and every state string "unknown". -/
theorem C10_missing_tool_unknown_status (w : World) (s n : String)
    (hb : w.binExists = false)
    (hn : _normalize_unit s = Except.ok n)
    (h1 : hasSubstrS "not be found" ("systemctl not found at " ++ w.systemctlBin) = false)
    (h2 : hasSubstrS "not-found" ("systemctl not found at " ++ w.systemctlBin) = false) :
    _get_unit_status w s =
      (Except.ok
        { unit := n, unitExists := true, active := false,
          activeState := "unknown", subState := "unknown", unitFileState := "unknown",
          enabled := false, canToggleEnable := true, description := none,
          loadState := "unknown" },
       [show_args n]) := by
  have hr : _run_systemctl w (show_args n) =
      (127, "", "systemctl not found at " ++ w.systemctlBin) := by
    simp [_run_systemctl, hb]
  have hs : statusFrom n 127 "" ("systemctl not found at " ++ w.systemctlBin) =
      parsedStatus n "" := by
    simp [statusFrom, h1, h2]
  simp [_get_unit_status, hn, fetch_status, hr, hs]
  rfl

/-- A concrete instance of C10 at the fallback path `/usr/bin/systemctl`. -/
theorem C10_missing_tool_unknown_status_witness :
    hasSubstrS "not-found" ("systemctl not found at " ++ "/usr/bin/systemctl") = false ∧
    _get_unit_status
        { systemctlBin := "/usr/bin/systemctl", binExists := false,
          exec := fun _ => (0, "", "") } "sshd"
      = (Except.ok
          { unit := "sshd.service", unitExists := true, active := false,
            activeState := "unknown", subState := "unknown", unitFileState := "unknown",
            enabled := false, canToggleEnable := true, description := none,
            loadState := "unknown" },
         [show_args "sshd.service"]) :=
  ⟨by decide,
   C10_missing_tool_unknown_status
      { systemctlBin := "/usr/bin/systemctl", binExists := false,
        exec := fun _ => (0, "", "") }
      "sshd" "sshd.service" (by decide) (by decide) (by decide) (by decide)⟩

/-- Claim C4: in the generic (non-shortcut) branch, the derived fields
are exactly the spec's formulas over the parsed property mapping with
its documented defaults. -/
theorem C4_parsed_status_fields (u : String) (rc : Int) (out err : String)
    (h : ((rc != 0) && (out == "") &&
        (hasSubstrS "not be found" err || hasSubstrS "not-found" err)) = false) :
    (statusFrom u rc out err).unit = u ∧
    ((statusFrom u rc out err).unitExists = true ↔
      kvGetD (_parse_kv_lines out) "LoadState" "unknown" ≠ "not-found") ∧
    ((statusFrom u rc out err).active = true ↔
      kvGetD (_parse_kv_lines out) "ActiveState" "unknown" = "active") ∧
    (statusFrom u rc out err).activeState = kvGetD (_parse_kv_lines out) "ActiveState" "unknown" ∧
    (statusFrom u rc out err).subState = kvGetD (_parse_kv_lines out) "SubState" "unknown" ∧
    (statusFrom u rc out err).unitFileState
      = kvGetD (_parse_kv_lines out) "UnitFileState" "unknown" ∧
    ((statusFrom u rc out err).enabled = true ↔
      (kvGetD (_parse_kv_lines out) "UnitFileState" "unknown" = "enabled" ∨
       kvGetD (_parse_kv_lines out) "UnitFileState" "unknown" = "enabled-runtime")) ∧
    ((statusFrom u rc out err).canToggleEnable = true ↔
      kvGetD (_parse_kv_lines out) "UnitFileState" "unknown" ≠ "static") ∧
    (statusFrom u rc out err).description = kvGet (_parse_kv_lines out) "Description" ∧
    (statusFrom u rc out err).loadState = kvGetD (_parse_kv_lines out) "LoadState" "unknown" := by
  have hst : statusFrom u rc out err = parsedStatus u out := by
    simp [statusFrom, h]
  rw [hst]
  simp [parsedStatus]

/-- The spec's example `show` stdout for C4. -/
def exampleShowOut : String :=
  "LoadState=loaded\nActiveState=active\nSubState=running\nUnitFileState=enabled\nDescription=Test\n"

/-- A concrete instance of C4 at the spec's example stdout (the shortcut
condition is false there since stdout is non-empty). -/
theorem C4_parsed_status_fields_witness :
    (((0 : Int) != 0) && (exampleShowOut == "") &&
        (hasSubstrS "not be found" "" || hasSubstrS "not-found" "")) = false ∧
    ((statusFrom "t.service" 0 exampleShowOut "").unit = "t.service" ∧
     ((statusFrom "t.service" 0 exampleShowOut "").unitExists = true ↔
       kvGetD (_parse_kv_lines exampleShowOut) "LoadState" "unknown" ≠ "not-found") ∧
     ((statusFrom "t.service" 0 exampleShowOut "").active = true ↔
       kvGetD (_parse_kv_lines exampleShowOut) "ActiveState" "unknown" = "active") ∧
     (statusFrom "t.service" 0 exampleShowOut "").activeState
       = kvGetD (_parse_kv_lines exampleShowOut) "ActiveState" "unknown" ∧
     (statusFrom "t.service" 0 exampleShowOut "").subState
       = kvGetD (_parse_kv_lines exampleShowOut) "SubState" "unknown" ∧
     (statusFrom "t.service" 0 exampleShowOut "").unitFileState
       = kvGetD (_parse_kv_lines exampleShowOut) "UnitFileState" "unknown" ∧
     ((statusFrom "t.service" 0 exampleShowOut "").enabled = true ↔
       (kvGetD (_parse_kv_lines exampleShowOut) "UnitFileState" "unknown" = "enabled" ∨
        kvGetD (_parse_kv_lines exampleShowOut) "UnitFileState" "unknown" = "enabled-runtime")) ∧
     ((statusFrom "t.service" 0 exampleShowOut "").canToggleEnable = true ↔
       kvGetD (_parse_kv_lines exampleShowOut) "UnitFileState" "unknown" ≠ "static") ∧
     (statusFrom "t.service" 0 exampleShowOut "").description
       = kvGet (_parse_kv_lines exampleShowOut) "Description" ∧
     (statusFrom "t.service" 0 exampleShowOut "").loadState
       = kvGetD (_parse_kv_lines exampleShowOut) "LoadState" "unknown") ∧
    statusFrom "t.service" 0 exampleShowOut ""
      = { unit := "t.service", unitExists := true, active := true,
          activeState := "active", subState := "running", unitFileState := "enabled",
          enabled := true, canToggleEnable := true, description := some "Test",
          loadState := "loaded" } :=
  ⟨by decide, C4_parsed_status_fields "t.service" 0 exampleShowOut "" (by decide), by decide⟩

/-- Modelled from the spec (§4.1.10): the non-empty fragments
`[stderr, stdout-if-distinct-from-stderr]` joined with " | ", falling
back to "systemctl <action> failed", with " (rc=<code>)" appended. -/
def specErrorText (action : String) (rc : Int) (out err : String) : String :=
  let frags : List String :=
    (if err ≠ "" then [err] else []) ++ (if out ≠ "" ∧ out ≠ err then [out] else [])
  (if frags = [] then "systemctl " ++ action ++ " failed"
   else String.intercalate " | " frags) ++ " (rc=" ++ toString rc ++ ")"

/-- The source's error formatter agrees with the spec's description for
all inputs. -/
theorem fmt_eq_spec (action unit : String) (rc : Int) (out err : String) :
    _format_systemctl_error action unit rc out err = specErrorText action rc out err := by
  unfold _format_systemctl_error specErrorText
  by_cases he : err = ""
  · by_cases ho : out = ""
    · simp [he, ho]
    · simp [he, ho]
  · by_cases ho : out = ""
    · simp [he, ho]
    · by_cases hoe : out = err
      · simp [he, ho, hoe]
      · simp [he, ho, hoe, Ne.symm hoe]

/-- Claim C6: for an allowlisted unit, when the `start`/`stop` invocation
exits non-zero, `set_service_running` does not throw: it returns the
re-fetched status annotated with the error text the spec describes
(fragments joined with " | ", fallback "systemctl <action> failed",
trailing " (rc=<rc>)"). -/
theorem C6_running_failure_annotated (w : World) (s u : String) (running : Bool)
    (hn : _normalize_unit s = Except.ok u) (ha : _is_allowed u = true)
    (hrc : (_run_systemctl w [if running then "start" else "stop", u]).1 ≠ 0) :
    set_service_running w s running =
      (Except.ok (fetch_status w u,
        some (specErrorText (if running then "start" else "stop")
          (_run_systemctl w [if running then "start" else "stop", u]).1
          (_run_systemctl w [if running then "start" else "stop", u]).2.1
          (_run_systemctl w [if running then "start" else "stop", u]).2.2)),
       [[if running then "start" else "stop", u], show_args u]) := by
  have hb : ((_run_systemctl w [if running then "start" else "stop", u]).1 != 0) = true := by
    simpa using hrc
  simp [set_service_running, hn, ha, hb, gss_allowed w u ha, fmt_eq_spec]

/-- The environment for the C6 instance: `stop` fails with exit code 1
and silent streams, `show` succeeds with empty output. -/
def wStop : World :=
  { systemctlBin := "/usr/bin/systemctl", binExists := true,
    exec := fun args => if args.any (fun a => a == "stop") then (1, "", "") else (0, "", "") }

/-- A concrete instance of C6: stopping `sshd` when `systemctl stop`
exits 1 with empty stdout/stderr yields the fallback error text
"systemctl stop failed (rc=1)" on the re-fetched status. -/
theorem C6_running_failure_annotated_witness :
    (_run_systemctl wStop ["stop", "sshd.service"]).1 ≠ 0 ∧
    set_service_running wStop "sshd" false =
      (Except.ok
        ({ unit := "sshd.service", unitExists := true, active := false,
           activeState := "unknown", subState := "unknown", unitFileState := "unknown",
           enabled := false, canToggleEnable := true, description := none,
           loadState := "unknown" },
         some "systemctl stop failed (rc=1)"),
       [["stop", "sshd.service"], show_args "sshd.service"]) :=
  ⟨by decide,
   (C6_running_failure_annotated wStop "sshd" "sshd.service" false (by decide) (by decide)
      (by decide)).trans (by decide)⟩

/-- The trace of the enable step: the `enable` invocation followed by the
re-fetch's `show`, regardless of the enable exit code. -/
theorem enable_step_trace (w : World) (u : String) (ha : _is_allowed u = true)
    (tpre : List (List String)) :
    (enable_step w u tpre).2 = tpre ++ [["enable", u]] ++ [show_args u] := by
  unfold enable_step
  rw [gss_allowed w u ha]
  cases hr : ((_run_systemctl w ["enable", u]).1 != 0) <;> simp [hr]

/-- Claim C7: enabling an allowlisted unit whose current unit-file state
is `static` performs no `enable` or `unmask` invocation and returns the
current status annotated with exactly
"unit is static and cannot be enabled/disabled". -/
theorem C7_static_blocks_enable (w : World) (s u : String)
    (hn : _normalize_unit s = Except.ok u) (ha : _is_allowed u = true)
    (hst : (fetch_status w u).unitFileState = "static") :
    set_service_enabled w s true =
      (Except.ok (fetch_status w u, some "unit is static and cannot be enabled/disabled"),
       [show_args u, show_args u]) ∧
    ["enable", u] ∉ (set_service_enabled w s true).2 ∧
    ["unmask", u] ∉ (set_service_enabled w s true).2 := by
  have he : set_service_enabled w s true =
      (Except.ok (fetch_status w u, some "unit is static and cannot be enabled/disabled"),
       [show_args u, show_args u]) := by
    simp [set_service_enabled, hn, ha, gus_allowed w u ha, hst, gss_allowed w u ha]
  refine ⟨he, ?_, ?_⟩ <;> rw [he] <;> simp [show_args]

/-- The environment for the C7 instance: every `show` reports a static
unit. -/
def wStatic : World :=
  { systemctlBin := "/usr/bin/systemctl", binExists := true,
    exec := fun _ => (0, "UnitFileState=static", "") }

/-- A concrete instance of C7 on `sshd`. -/
theorem C7_static_blocks_enable_witness :
    (fetch_status wStatic "sshd.service").unitFileState = "static" ∧
    set_service_enabled wStatic "sshd" true =
      (Except.ok (fetch_status wStatic "sshd.service",
        some "unit is static and cannot be enabled/disabled"),
       [show_args "sshd.service", show_args "sshd.service"]) ∧
    ["enable", "sshd.service"] ∉ (set_service_enabled wStatic "sshd" true).2 ∧
    ["unmask", "sshd.service"] ∉ (set_service_enabled wStatic "sshd" true).2 :=
  ⟨by decide,
   C7_static_blocks_enable wStatic "sshd" "sshd.service" (by decide) (by decide) (by decide)⟩

/-- Claim C5: enabling an allowlisted unit whose current unit-file state
is `masked` invokes `unmask` directly after the status fetch and before
any `enable`; and when `unmask` exits non-zero, `enable` is never
invoked and the result is the freshly fetched status annotated with the
formatted `unmask` error. -/
theorem C5_unmask_precedes_enable (w : World) (s u : String)
    (hn : _normalize_unit s = Except.ok u) (ha : _is_allowed u = true)
    (hm : (fetch_status w u).unitFileState = "masked") :
    (∃ rest, (set_service_enabled w s true).2 = show_args u :: ["unmask", u] :: rest) ∧
    ((_run_systemctl w ["unmask", u]).1 ≠ 0 →
      set_service_enabled w s true =
        (Except.ok (fetch_status w u,
          some (_format_systemctl_error "unmask" u (_run_systemctl w ["unmask", u]).1
            (_run_systemctl w ["unmask", u]).2.1 (_run_systemctl w ["unmask", u]).2.2)),
         [show_args u, ["unmask", u], show_args u]) ∧
      ["enable", u] ∉ (set_service_enabled w s true).2) := by
  have hred : set_service_enabled w s true =
      (if ((_run_systemctl w ["unmask", u]).1 != 0) = true then
        (Except.ok (fetch_status w u,
          some (_format_systemctl_error "unmask" u (_run_systemctl w ["unmask", u]).1
            (_run_systemctl w ["unmask", u]).2.1 (_run_systemctl w ["unmask", u]).2.2)),
         [show_args u, ["unmask", u], show_args u])
      else enable_step w u [show_args u, ["unmask", u]]) := by
    simp [set_service_enabled, hn, ha, gus_allowed w u ha, hm, gss_allowed w u ha]
  cases hu : ((_run_systemctl w ["unmask", u]).1 != 0) with
  | true =>
    have he : set_service_enabled w s true =
        (Except.ok (fetch_status w u,
          some (_format_systemctl_error "unmask" u (_run_systemctl w ["unmask", u]).1
            (_run_systemctl w ["unmask", u]).2.1 (_run_systemctl w ["unmask", u]).2.2)),
         [show_args u, ["unmask", u], show_args u]) := by
      rw [hred]; simp [hu]
    refine ⟨⟨[show_args u], by rw [he]⟩, fun _ => ⟨he, ?_⟩⟩
    rw [he]
    simp [show_args]
  | false =>
    have he : set_service_enabled w s true = enable_step w u [show_args u, ["unmask", u]] := by
      rw [hred]; simp [hu]
    refine ⟨⟨["enable", u] :: [show_args u], ?_⟩, fun hrc => ?_⟩
    · rw [he, enable_step_trace w u ha]
      simp
    · have h0 : (_run_systemctl w ["unmask", u]).1 = 0 := by simpa using hu
      exact absurd h0 hrc

/-- The environment for the C5 instance: `show` reports a masked unit,
`unmask` fails with exit code 1 and stderr "boom". -/
def wMask : World :=
  { systemctlBin := "/usr/bin/systemctl", binExists := true,
    exec := fun args =>
      if args.any (fun a => a == "unmask") then (1, "", "boom")
      else (0, "UnitFileState=masked", "") }

/-- A concrete instance of C5: enabling a masked `sshd` whose `unmask`
fails returns the masked status annotated with "boom (rc=1)" after the
trace [show, unmask, show], with no `enable` invocation. -/
theorem C5_unmask_precedes_enable_witness :
    (fetch_status wMask "sshd.service").unitFileState = "masked" ∧
    (_run_systemctl wMask ["unmask", "sshd.service"]).1 ≠ 0 ∧
    set_service_enabled wMask "sshd" true =
      (Except.ok
        ({ unit := "sshd.service", unitExists := true, active := false,
           activeState := "unknown", subState := "unknown", unitFileState := "masked",
           enabled := false, canToggleEnable := true, description := none,
           loadState := "unknown" },
         some "boom (rc=1)"),
       [show_args "sshd.service", ["unmask", "sshd.service"], show_args "sshd.service"]) ∧
    ["enable", "sshd.service"] ∉ (set_service_enabled wMask "sshd" true).2 := by
  refine ⟨by decide, by decide, ?_, ?_⟩
  · exact ((C5_unmask_precedes_enable wMask "sshd" "sshd.service" (by decide) (by decide)
      (by decide)).2 (by decide)).1.trans (by decide)
  · exact ((C5_unmask_precedes_enable wMask "sshd" "sshd.service" (by decide) (by decide)
      (by decide)).2 (by decide)).2

/-- Modelled from the spec (§4.1.5): the key/value pairs of the lines
that contain `=`, in line order. -/
def specKvPairs (text : String) : List (String × String) :=
  (pySplitlines text.toList).filterMap lineKV

/-- Modelled from the spec (§4.1.5): lookup where the last occurrence of
a duplicated key wins — the first match in the reversed pair list. -/
def specKvLookup (text : String) (k : String) : Option String :=
  ((specKvPairs text).reverse.find? (fun p => p.1 == k)).map (fun p => p.2)

/-- `find?` over an append searches the left part first. -/
theorem find?_app {α : Type} (p : α → Bool) (l1 l2 : List α) :
    (l1 ++ l2).find? p =
      (match l1.find? p with
       | some a => some a
       | none => l2.find? p) := by
  induction l1 with
  | nil => simp
  | cons a l1 ih =>
    by_cases h : p a = true
    · simp [List.find?, h]
    · simp only [List.cons_append, List.find?]
      rw [Bool.not_eq_true] at h
      rw [h]
      exact ih

/-- Looking up after a dict update: the updated key reads the new value,
every other key is unchanged. -/
theorem kvGet_kvUpdate (m : List (String × String)) (k v k' : String) :
    kvGet (kvUpdate m k v) k' = if k' = k then some v else kvGet m k' := by
  induction m with
  | nil =>
    by_cases h : k' = k
    · have hb : (k == k') = true := by simp [h]
      simp [kvUpdate, kvGet, List.find?, hb, h]
    · have hb : (k == k') = false := by simp [Ne.symm h]
      simp [kvUpdate, kvGet, List.find?, hb, h]
  | cons p rest ih =>
    by_cases h1 : p.1 = k
    · have hb : (p.1 == k) = true := by simp [h1]
      by_cases h2 : k' = k
      · have hkk : (k == k') = true := by simp [h2]
        simp [kvUpdate, kvGet, List.find?, hb, hkk, h2]
      · have hkk : (k == k') = false := by simp [Ne.symm h2]
        have hpk : (p.1 == k') = false := by simp [h1, Ne.symm h2]
        simp [kvUpdate, kvGet, List.find?, hb, hkk, h2, hpk]
    · have hb : (p.1 == k) = false := by simp [h1]
      by_cases h2 : p.1 = k'
      · have h3 : ¬k' = k := fun hh => h1 (h2.trans hh)
        have hpk : (p.1 == k') = true := by simp [h2]
        simp [kvUpdate, kvGet, List.find?, hb, hpk, h3]
      · have hpk : (p.1 == k') = false := by simp [h2]
        simp only [kvUpdate, hb, Bool.false_eq_true, if_false, kvGet, List.find?, hpk]
        simpa [kvGet] using ih

/-- Folding the parse loop: lookup in the final dict is the last
occurrence among processed pairs, falling back to the accumulator. -/
theorem foldl_parseStep_lookup (ls : List (List Char)) (m : List (String × String))
    (k : String) :
    kvGet (ls.foldl parseStep m) k =
      (match (ls.filterMap lineKV).reverse.find? (fun p => p.1 == k) with
       | some p => some p.2
       | none => kvGet m k) := by
  induction ls generalizing m with
  | nil => simp
  | cons l ls ih =>
    rw [List.foldl_cons, ih]
    cases hl : lineKV l with
    | none => simp [parseStep, hl]
    | some kv =>
      simp only [List.filterMap_cons, hl, List.reverse_cons]
      rw [find?_app]
      cases hf : (ls.filterMap lineKV).reverse.find? (fun p => p.1 == k) with
      | some p => simp
      | none =>
        simp only [parseStep, hl]
        rw [kvGet_kvUpdate m kv.1 kv.2 k]
        by_cases hk : k = kv.1
        · simp [List.find?, hk]
        · have hb : (kv.1 == k) = false := by simp [Ne.symm hk]
          simp [List.find?, hb, hk]

/-- Claim C8: `_parse_kv_lines` splits its input into lines, ignores
lines without `=`, splits each other line at the first `=`, trims both
sides, and its mapping reads back the last occurrence of a duplicated
key: lookup in the parsed dict coincides, for every key, with the
first match in the reversed list of spec-side line pairs. -/
theorem C8_parse_kv_last_wins (text : String) (k : String) :
    kvGet (_parse_kv_lines text) k = specKvLookup text k := by
  rw [_parse_kv_lines, foldl_parseStep_lookup, specKvLookup, specKvPairs]
  cases hf : ((pySplitlines text.toList).filterMap lineKV).reverse.find?
      (fun p => p.1 == k) with
  | some p => simp
  | none => simp [kvGet]
